import Mathlib

/-!
Verification development for the go-reverse-download-demo repository
(file-download-system). The Go source is shallowly embedded: pure logic
becomes Lean functions, in-place mutation of records becomes explicit
state passing, external effects (blob-store calls, channel sends) become
explicit effect lists, and wall-clock times become an abstract Nat clock.
Go maps are embedded as association lists; iterating a Go map in
unspecified order is embedded by quantifying over the order of the list.
-/

namespace FDS

/-! ### Server data model, from server/models (UploadStatus and friends) -/

/-- UploadState from server/models: the status of an upload record. -/
inductive UploadState where
  | pending
  | inProgress
  | completed
  | failed
  | cancelled
deriving DecidableEq, Repr

/-- Go map lookup for a map from int part numbers to ETag strings. -/
def mapLookup : List (Int × String) → Int → Option String
  | [], _ => none
  | (k, v) :: rest, key => if k = key then some v else mapLookup rest key

/-- Go map assignment for a map from int part numbers to ETag strings:
replaces the binding for the key if present, otherwise adds it. -/
def mapSet : List (Int × String) → Int → String → List (Int × String)
  | [], key, val => [(key, val)]
  | (k, v) :: rest, key, val =>
      if k = key then (key, val) :: rest else (k, v) :: mapSet rest key val

/-- UploadStatus from server/models. ETags is the part-number-to-digest
map. Times use an abstract Nat clock. The S3UploadID field with its
setter and getter is called from server/api/handlers.go; it stores the
blob-store multipart session id. -/
structure UploadStatus where
  uploadID : String
  clientID : String
  filePath : String
  s3Bucket : String
  s3Key : String
  fileSize : Int
  chunkSize : Int
  totalParts : Int
  completedParts : Int
  bytesUploaded : Int
  status : UploadState
  startTime : Nat
  endTime : Option Nat
  error : String
  eTags : List (Int × String)
  s3UploadID : String
deriving DecidableEq, Repr

/-- NewUploadStatus from server/models: fresh record in the pending state
with zero counters and an empty digest map. -/
def NewUploadStatus (uploadID clientID filePath bucket key : String)
    (fileSize chunkSize totalParts : Int) (now : Nat) : UploadStatus :=
  { uploadID := uploadID
    clientID := clientID
    filePath := filePath
    s3Bucket := bucket
    s3Key := key
    fileSize := fileSize
    chunkSize := chunkSize
    totalParts := totalParts
    completedParts := 0
    bytesUploaded := 0
    status := UploadState.pending
    startTime := now
    endTime := none
    error := ""
    eTags := []
    s3UploadID := "" }

/-- UpdateProgress from server/models: increments the completed-parts
counter only when the part number is new, stores the ETag, overwrites the
bytes-uploaded counter, and moves a pending record to in-progress. -/
def UpdateProgress (u : UploadStatus) (partNumber : Int) (etag : String)
    (bytesUploaded : Int) : UploadStatus :=
  let u1 :=
    if (mapLookup u.eTags partNumber).isNone then
      { u with completedParts := u.completedParts + 1 }
    else u
  let u2 := { u1 with
    eTags := mapSet u1.eTags partNumber etag
    bytesUploaded := bytesUploaded }
  if u2.status = UploadState.pending then
    { u2 with status := UploadState.inProgress }
  else u2

/-- MarkCompleted from server/models: sets the status to completed and
overwrites the end time with the current time. -/
def MarkCompleted (now : Nat) (u : UploadStatus) : UploadStatus :=
  { u with status := UploadState.completed, endTime := some now }

/-- MarkFailed from server/models: sets the status to failed, records the
error text and overwrites the end time. -/
def MarkFailed (now : Nat) (err : String) (u : UploadStatus) : UploadStatus :=
  { u with status := UploadState.failed, error := err, endTime := some now }

/-- MarkCancelled from server/models: sets the status to cancelled and
overwrites the end time. -/
def MarkCancelled (now : Nat) (u : UploadStatus) : UploadStatus :=
  { u with status := UploadState.cancelled, endTime := some now }

/-! ### Shared protocol messages, from shared/models -/

/-- CommandAction from shared/models. -/
inductive CommandAction where
  | downloadFile
  | cancelUpload
  | healthCheck
deriving DecidableEq, Repr

/-- ResponseStatus from shared/models. -/
inductive ResponseStatus where
  | success
  | error
  | inProgress
  | cancelled
deriving DecidableEq, Repr

/-- The decoded payload of a download-file response as server/api
handlers.go reads it: the upload id string and the etags map whose
string keys were already converted to ints by the Sscanf loop. The list
order stands for the unspecified Go map iteration order. -/
structure DownloadResponsePayload where
  uploadID : String
  eTags : List (Int × String)
deriving DecidableEq, Repr

/-- ResponseMessage from shared/models, restricted to the fields the
server handler reads. -/
structure ResponseMessage where
  status : ResponseStatus
  action : CommandAction
  payload : DownloadResponsePayload
  error : String
deriving DecidableEq, Repr

/-- UploadStatus progress snapshot inside a status message, from
shared/models (client-reported counters). -/
structure UploadStatusMsg where
  uploadID : String
  completedParts : Int
  bytesUploaded : Int
deriving DecidableEq, Repr

/-- StatusMessage from shared/models, restricted to the fields the server
handler reads. -/
structure StatusMessage where
  clientID : String
  status : String
  currentUpload : Option UploadStatusMsg
deriving DecidableEq, Repr

/-! ### Blob-store types, from server/s3/client.go -/

/-- CompletedPart from server/s3/client.go. -/
structure CompletedPart where
  partNumber : Int
  eTag : String
deriving DecidableEq, Repr

/-- PresignedURL from server/s3/client.go and shared/models. -/
structure PresignedURL where
  partNumber : Int
  url : String
deriving DecidableEq, Repr

/-- Blob-store operations invoked by the orchestrator, recorded as
effects. -/
inductive S3Call where
  | completeMultipart (key uploadID : String) (parts : List CompletedPart)
  | abortMultipart (key uploadID : String)
deriving DecidableEq, Repr

/-- Comparison used by the sort in HandleResponse: ascending part
number. -/
def partLe (a b : CompletedPart) : Prop := a.partNumber ≤ b.partNumber

instance : DecidableRel partLe := fun a b =>
  inferInstanceAs (Decidable (a.partNumber ≤ b.partNumber))

instance : IsTotal CompletedPart partLe :=
  ⟨fun a b => Int.le_total a.partNumber b.partNumber⟩

instance : IsTrans CompletedPart partLe :=
  ⟨fun _ _ _ h1 h2 => le_trans h1 h2⟩

/-- The sort.Slice call in HandleResponse, which sorts the completed
parts by ascending part number, embedded as an insertion sort with the
same comparison. -/
def sortPartsByNumber (l : List CompletedPart) : List CompletedPart :=
  List.insertionSort partLe l

/-- Conversion of parsed etags map entries to completed parts, as the
loop in HandleResponse builds them before sorting. -/
def etagsToParts (l : List (Int × String)) : List CompletedPart :=
  l.map fun kv => { partNumber := kv.1, eTag := kv.2 }

/-- A blob-store call whose part list, if it has one, is sorted by
ascending part number. -/
def s3CallPartsSorted : S3Call → Prop
  | S3Call.completeMultipart _ _ parts => List.Sorted partLe parts
  | S3Call.abortMultipart _ _ => True

/-! ### The uploads store of the websocket Manager -/

/-- Lookup in the uploads map of server/websocket/manager.go. -/
def storeLookup : List (String × UploadStatus) → String → Option UploadStatus
  | [], _ => none
  | (k, v) :: rest, key => if k = key then some v else storeLookup rest key

/-- The in-place mutation of the record found in the uploads map is
embedded as replacing that binding. -/
def storeSet : List (String × UploadStatus) → String → UploadStatus →
    List (String × UploadStatus)
  | [], key, val => [(key, val)]
  | (k, v) :: rest, key, val =>
      if k = key then (key, val) :: rest else (k, v) :: storeSet rest key val

/-! ### Server response and status handlers, from server/api/handlers.go -/

/-- HandleResponse from server/api/handlers.go. The abstract clock now
stamps MarkCompleted, MarkFailed and MarkCancelled. completeResult is the
outcome of the blob-store CompleteMultipartUpload call when it is made:
none for success, some errText for failure. Returns the updated uploads
store together with the list of blob-store calls issued. -/
def HandleResponse (now : Nat) (completeResult : Option String)
    (uploads : List (String × UploadStatus)) (msg : ResponseMessage) :
    List (String × UploadStatus) × List S3Call :=
  if msg.action = CommandAction.downloadFile then
    match storeLookup uploads msg.payload.uploadID with
    | none => (uploads, [])
    | some upload =>
      match msg.status with
      | ResponseStatus.success =>
        if 0 < msg.payload.eTags.length then
          match completeResult with
          | none =>
              (storeSet uploads msg.payload.uploadID (MarkCompleted now upload),
               [S3Call.completeMultipart (MarkCompleted now upload).s3Key
                 (MarkCompleted now upload).s3UploadID
                 (sortPartsByNumber (etagsToParts msg.payload.eTags))])
          | some errText =>
              (storeSet uploads msg.payload.uploadID
                 (MarkFailed now errText (MarkCompleted now upload)),
               [S3Call.completeMultipart (MarkCompleted now upload).s3Key
                 (MarkCompleted now upload).s3UploadID
                 (sortPartsByNumber (etagsToParts msg.payload.eTags))])
        else
          (storeSet uploads msg.payload.uploadID (MarkCompleted now upload), [])
      | ResponseStatus.error =>
          (storeSet uploads msg.payload.uploadID (MarkFailed now msg.error upload),
           [S3Call.abortMultipart upload.s3Key upload.s3UploadID])
      | ResponseStatus.cancelled =>
          (storeSet uploads msg.payload.uploadID (MarkCancelled now upload),
           [S3Call.abortMultipart upload.s3Key upload.s3UploadID])
      | ResponseStatus.inProgress => (uploads, [])
  else (uploads, [])

/-- HandleStatus from server/api/handlers.go: when the message carries a
progress snapshot whose upload id is registered, it overwrites the
bytes-uploaded and completed-parts counters of that record with the
client-reported values, with no check of the record state and no change
to the digest map. -/
def HandleStatus (uploads : List (String × UploadStatus))
    (msg : StatusMessage) : List (String × UploadStatus) :=
  match msg.currentUpload with
  | none => uploads
  | some cu =>
    match storeLookup uploads cu.uploadID with
    | none => uploads
    | some upload =>
        storeSet uploads cu.uploadID
          { upload with
              bytesUploaded := cu.bytesUploaded
              completedParts := cu.completedParts }

/-! ### Blob-store multipart session, from server/s3/client.go -/

/-- The part-count computation in InitiateMultipartUpload (and
CalculateParts in the client uploader): integer division of the file
size by the chunk size, plus one when there is a remainder. -/
def totalPartsFor (fileSize chunkSize : Int) : Int :=
  fileSize / chunkSize + (if fileSize % chunkSize = 0 then 0 else 1)

/-- Abstract form of a presigned upload-part URL string. Its content is
never inspected by the embedded logic. -/
def presignPartURL (bucket key sessionID : String) (partNumber : Int) : String :=
  bucket ++ "/" ++ key ++ "?uploadId=" ++ sessionID ++
    "&partNumber=" ++ toString partNumber

/-- MultipartUpload from server/s3/client.go. -/
structure MultipartUpload where
  uploadID : String
  bucket : String
  key : String
  totalParts : Int
  chunkSize : Int
  presignedURLs : List PresignedURL
deriving DecidableEq, Repr

/-- InitiateMultipartUpload from server/s3/client.go: computes the total
part count from the given file size and chunk size and produces one
presigned URL per part, numbered 1 through totalParts. The blob-store
session id is the sessionID input. -/
def InitiateMultipartUpload (bucket key sessionID : String)
    (fileSize chunkSize : Int) : MultipartUpload :=
  let totalParts := totalPartsFor fileSize chunkSize
  { uploadID := sessionID
    bucket := bucket
    key := key
    totalParts := totalParts
    chunkSize := chunkSize
    presignedURLs := (List.range totalParts.toNat).map fun (i : Nat) =>
      { partNumber := (i : Int) + 1
        url := presignPartURL bucket key sessionID ((i : Int) + 1) } }

/-! ### Client-side transfer executor, from the uploader package in
src/client (Uploader.Upload) -/

/-- One uploaded part with the byte range the executor read for it. -/
structure UploadedPart where
  partNumber : Int
  offset : Int
  size : Int
deriving DecidableEq, Repr

/-- The part loop of Uploader.Upload in the client uploader package. For
each presigned URL of the ticket, in order, it computes the offset
(partNumber - 1) * chunkSize, takes the chunk size as the part size, and
shrinks the part size to fileSize - offset when the chunk would run past
the end of the file. Go then allocates the part buffer with make, which
panics when the computed size is negative: that panic is embedded as
none. A successful run returns the list of parts uploaded with their
byte ranges. -/
def uploadPartsLoop (chunkSize fileSize : Int) :
    List PresignedURL → Option (List UploadedPart)
  | [] => some []
  | u :: rest =>
    let offset := (u.partNumber - 1) * chunkSize
    let partSize :=
      if fileSize < offset + chunkSize then fileSize - offset else chunkSize
    if partSize < 0 then none
    else
      match uploadPartsLoop chunkSize fileSize rest with
      | none => none
      | some parts =>
          some ({ partNumber := u.partNumber, offset := offset,
                  size := partSize } :: parts)

/-! ### Trigger-download orchestration, from server/api/handlers.go -/

/-- The default-file-path substitution of TriggerDownload: an empty
request path is replaced with the fixed default. -/
def defaultedFilePath (reqPath : String) : String :=
  if reqPath = "" then "/data/test-file.bin" else reqPath

/-- The fixed estimated file size (the configured ceiling) that
TriggerDownload passes to InitiateMultipartUpload: 100 MiB. -/
def estimatedFileSize : Int := 100 * 1024 * 1024

/-- Go path.Base: the last element of the path after dropping trailing
slashes; the empty path gives a dot and an all-slash path gives a
slash. -/
def pathBase (p : String) : String :=
  if p = "" then "." else
  match ((p.splitOn "/").filter fun s => s ≠ "").getLast? with
  | some b => b
  | none => "/"

/-- One hex digit, as encoding/hex produces (lowercase). -/
def hexDigit (n : Nat) : Char :=
  if n < 10 then Char.ofNat (48 + n) else Char.ofNat (87 + n)

/-- Hex encoding of one byte. -/
def hexByte (b : Nat) : String :=
  String.mk [hexDigit (b / 16 % 16), hexDigit (b % 16)]

/-- generateUploadID from server/api/handlers.go: the hex encoding of 16
bytes drawn from the cryptographic random source. The random bytes are
an input of the embedding. -/
def generateUploadID (randBytes : List Nat) : String :=
  String.join (randBytes.map hexByte)

/-- DownloadFilePayload and UploadConfig from shared/models, as
TriggerDownload builds them into the command. -/
structure UploadConfig where
  uploadID : String
  bucket : String
  key : String
  chunkSize : Int
  presignedURLs : List PresignedURL
deriving DecidableEq, Repr

/-- The download-file command payload. -/
structure DownloadFilePayload where
  filePath : String
  uploadConfig : UploadConfig
deriving DecidableEq, Repr

/-- CommandMessage from shared/models, restricted to the fields
TriggerDownload fills. -/
structure CommandMessage where
  action : CommandAction
  messageID : String
  payload : DownloadFilePayload
deriving DecidableEq, Repr

/-- Handler configuration from server/api/handlers.go plus the bucket of
the blob-store client. -/
structure HandlerConfig where
  chunkSize : Int
  baseS3Path : String
  bucket : String
deriving DecidableEq, Repr

/-- The request body of a trigger-download call. -/
structure TriggerDownloadRequest where
  filePath : String
deriving DecidableEq, Repr

/-- The state-changing steps TriggerDownload performs, in order. -/
inductive TriggerEffect where
  | s3InitiateMultipart (key : String) (fileSize chunkSize : Int)
  | registerUpload (uploadID : String)
  | sendCommand (clientID : String)
deriving DecidableEq, Repr

/-- The error outcomes of TriggerDownload. -/
inductive TriggerError where
  | notConnected (clientID : String)
  | initiateFailed
  | sendFailed
deriving DecidableEq, Repr

/-- The successful outcome of TriggerDownload. -/
structure TriggerOutcome where
  uploadID : String
  s3Key : String
  registered : UploadStatus
  command : CommandMessage
deriving DecidableEq, Repr

/-- TriggerDownload from server/api/handlers.go. The connected-client
check comes first: a client id with no live channel yields the
not-connected error with no effects at all. Otherwise the handler
defaults the file path, generates the upload id from the random bytes,
derives the blob key from the base path, client id, timestamp and file
base name, initiates the 100 MiB-ceiling multipart session, registers
the pending record (with the session id stored), and sends the
download-file command. External failures of the initiate and send calls
are inputs initiateOk and sendOk. -/
def TriggerDownload (cfg : HandlerConfig) (connectedClients : List String)
    (clientID : String) (req : TriggerDownloadRequest) (randBytes : List Nat)
    (timestamp sessionID : String) (now : Nat) (initiateOk sendOk : Bool) :
    Except TriggerError TriggerOutcome × List TriggerEffect :=
  if connectedClients.contains clientID then
    let filePath := defaultedFilePath req.filePath
    let uploadID := generateUploadID randBytes
    let s3Key := cfg.baseS3Path ++ "/" ++ clientID ++ "/" ++ timestamp ++
      "-" ++ pathBase filePath
    let initEffect := TriggerEffect.s3InitiateMultipart s3Key
      estimatedFileSize cfg.chunkSize
    if initiateOk then
      let multipartUpload := InitiateMultipartUpload cfg.bucket s3Key
        sessionID estimatedFileSize cfg.chunkSize
      let uploadStatus0 := NewUploadStatus uploadID clientID filePath
        multipartUpload.bucket multipartUpload.key estimatedFileSize
        cfg.chunkSize multipartUpload.totalParts now
      let uploadStatus := { uploadStatus0 with
        s3UploadID := multipartUpload.uploadID }
      let command : CommandMessage :=
        { action := CommandAction.downloadFile
          messageID := uploadID
          payload :=
            { filePath := filePath
              uploadConfig :=
                { uploadID := uploadID
                  bucket := multipartUpload.bucket
                  key := multipartUpload.key
                  chunkSize := cfg.chunkSize
                  presignedURLs := multipartUpload.presignedURLs } } }
      if sendOk then
        (Except.ok
          { uploadID := uploadID
            s3Key := s3Key
            registered := uploadStatus
            command := command },
         [initEffect, TriggerEffect.registerUpload uploadID,
          TriggerEffect.sendCommand clientID])
      else
        (Except.error TriggerError.sendFailed,
         [initEffect, TriggerEffect.registerUpload uploadID,
          TriggerEffect.sendCommand clientID])
    else
      (Except.error TriggerError.initiateFailed, [initEffect])
  else
    (Except.error (TriggerError.notConnected clientID), [])

/-- The file-path choice of the client command handler
(CommandHandler.handleDownloadFile in client/handler/handler.go): the
configured default is used only when the command payload carries no
file-path string or an empty one. -/
def effectiveFilePath (configured : String) (payloadPath : Option String) :
    String :=
  match payloadPath with
  | some fp => if fp ≠ "" then fp else configured
  | none => configured

/-- Projection of a trigger result to the file path carried by the
command payload, when the trigger succeeded. -/
def triggerCommandPath : Except TriggerError TriggerOutcome → Option String
  | Except.ok out => some out.command.payload.filePath
  | Except.error _ => none

/-! ### Channel registry, from server/websocket/manager.go -/

/-- Lookup in the clients map of the Manager; connection objects are
abstracted as Nat identifiers. -/
def clientsLookup : List (String × Nat) → String → Option Nat
  | [], _ => none
  | (k, v) :: rest, key => if k = key then some v else clientsLookup rest key

/-- Go map assignment in the clients map of the Manager. -/
def clientsSet : List (String × Nat) → String → Nat → List (String × Nat)
  | [], key, val => [(key, val)]
  | (k, v) :: rest, key, val =>
      if k = key then (key, val) :: rest else (k, v) :: clientsSet rest key val

/-- RegisterClient from server/websocket/manager.go: closes the existing
connection for the id, if any, then stores the new one under the id.
Returns the new clients map and the list of connections closed. -/
def RegisterClient (clients : List (String × Nat)) (clientID : String)
    (conn : Nat) : List (String × Nat) × List Nat :=
  match clientsLookup clients clientID with
  | some oldConn => (clientsSet clients clientID conn, [oldConn])
  | none => (clientsSet clients clientID conn, [])

/-- The number of registry entries held for one client id. -/
def countKey (clients : List (String × Nat)) (id : String) : Nat :=
  (clients.filter fun c => c.1 = id).length

/-! ### Agent-side reconnect backoff, from client/websocket/client.go -/

/-- The delay update after a dial failure in Client.Start: double, then
clamp to the configured maximum. -/
def nextReconnectDelay (maxReconnect delay : Int) : Int :=
  let doubled := delay * 2
  if maxReconnect < doubled then maxReconnect else doubled

/-- The connect-attempt outcomes that drive the reconnect-delay state. -/
inductive ConnectEvent where
  | dialFailure
  | dialSuccess
deriving DecidableEq, Repr

/-- The reconnect-delay state transition of Client.Start: a dial failure
doubles and clamps the delay (after the wait that used the old value); a
dial success resets it to the configured base delay. -/
def applyConnectEvent (base maxReconnect delay : Int) :
    ConnectEvent → Int
  | ConnectEvent.dialFailure => nextReconnectDelay maxReconnect delay
  | ConnectEvent.dialSuccess => base

/-- The reconnect-delay value held by Client.Start after a sequence of
connect-attempt outcomes, starting from the base delay. This value is
the wait the client performs when the next dial failure occurs. -/
def reconnectDelayAfter (base maxReconnect : Int)
    (events : List ConnectEvent) : Int :=
  events.foldl (applyConnectEvent base maxReconnect) base

/-! ### Record-level invariants and concrete fixtures -/

/-- The completed-parts-equals-digest-map-size check for one record. -/
def invCPB (u : UploadStatus) : Bool :=
  u.completedParts == (u.eTags.length : Int)

/-- The same check over every record of an uploads store. -/
def storeInvB (uploads : List (String × UploadStatus)) : Bool :=
  uploads.all fun p => invCPB p.2

/-- A transfer record that has already reached the Completed state, as
left by a first success response. -/
def completedRecord : UploadStatus :=
  { uploadID := "t1"
    clientID := "agent-1"
    filePath := "/data/test-file.bin"
    s3Bucket := "bucket"
    s3Key := "uploads/agent-1/20251101-120000-test-file.bin"
    fileSize := estimatedFileSize
    chunkSize := 5242880
    totalParts := 20
    completedParts := 3
    bytesUploaded := 12582912
    status := UploadState.completed
    startTime := 0
    endTime := some 1
    error := ""
    eTags := []
    s3UploadID := "sid"
  }

/-- A freshly created transfer record in the pending state. -/
def freshRecord : UploadStatus :=
  NewUploadStatus "t1" "agent-1" "/data/test-file.bin" "bucket"
    "uploads/agent-1/20251101-120000-test-file.bin" estimatedFileSize
    5242880 20 0

/-- A duplicate success response for transfer t1 carrying one digest. -/
def dupSuccessMsg : ResponseMessage :=
  { status := ResponseStatus.success
    action := CommandAction.downloadFile
    payload := { uploadID := "t1", eTags := [(1, "etag-1")] }
    error := "" }

/-- A progress snapshot reporting two completed parts for transfer t1. -/
def progressStatusMsg : StatusMessage :=
  { clientID := "agent-1"
    status := "uploading"
    currentUpload := some { uploadID := "t1", completedParts := 2,
                            bytesUploaded := 10485760 } }

/-! ## Helper lemmas -/

theorem storeLookup_storeSet_self (l : List (String × UploadStatus))
    (k : String) (v : UploadStatus) :
    storeLookup (storeSet l k v) k = some v := by
  induction l with
  | nil => simp [storeSet, storeLookup]
  | cons p rest ih =>
    obtain ⟨a, b⟩ := p
    by_cases h : a = k
    · simp [storeSet, storeLookup, h]
    · simp [storeSet, storeLookup, h, ih]

theorem storeInvB_lookup (l : List (String × UploadStatus)) (k : String)
    (u : UploadStatus) (hinv : storeInvB l = true)
    (hl : storeLookup l k = some u) : invCPB u = true := by
  induction l with
  | nil => simp [storeLookup] at hl
  | cons p rest ih =>
    obtain ⟨a, b⟩ := p
    simp only [storeInvB, List.all_cons, Bool.and_eq_true] at hinv
    by_cases h : a = k
    · simp only [storeLookup, h, if_pos rfl] at hl
      cases hl
      exact hinv.1
    · simp only [storeLookup, h, if_neg h] at hl
      exact ih (by simpa [storeInvB] using hinv.2) hl

theorem storeInvB_storeSet (l : List (String × UploadStatus)) (k : String)
    (v : UploadStatus) (hinv : storeInvB l = true) (hv : invCPB v = true) :
    storeInvB (storeSet l k v) = true := by
  induction l with
  | nil => simpa [storeSet, storeInvB] using hv
  | cons p rest ih =>
    obtain ⟨a, b⟩ := p
    simp only [storeInvB, List.all_cons, Bool.and_eq_true] at hinv
    by_cases h : a = k
    · simp [storeSet, storeInvB, h, hv]
      simpa [storeInvB] using hinv.2
    · simp only [storeSet, if_neg h, storeInvB, List.all_cons, Bool.and_eq_true]
      exact ⟨hinv.1, by simpa [storeInvB] using ih (by simpa [storeInvB] using hinv.2)⟩

theorem mapSet_length_none (l : List (Int × String)) (k : Int) (v : String)
    (h : mapLookup l k = none) : (mapSet l k v).length = l.length + 1 := by
  induction l with
  | nil => simp [mapSet]
  | cons p rest ih =>
    obtain ⟨a, b⟩ := p
    by_cases hk : a = k
    · simp [mapLookup, hk] at h
    · simp only [mapLookup, if_neg hk] at h
      simp [mapSet, if_neg hk, ih h]

theorem mapSet_length_some (l : List (Int × String)) (k : Int) (v w : String)
    (h : mapLookup l k = some w) : (mapSet l k v).length = l.length := by
  induction l generalizing w with
  | nil => simp [mapLookup] at h
  | cons p rest ih =>
    obtain ⟨a, b⟩ := p
    by_cases hk : a = k
    · simp [mapSet, hk]
    · simp only [mapLookup, if_neg hk] at h
      simp [mapSet, if_neg hk, ih w h]

theorem handleStatus_lookup (uploads : List (String × UploadStatus))
    (msg : StatusMessage) (cu : UploadStatusMsg) (u : UploadStatus)
    (hcu : msg.currentUpload = some cu)
    (hlook : storeLookup uploads cu.uploadID = some u) :
    storeLookup (HandleStatus uploads msg) cu.uploadID =
      some { u with bytesUploaded := cu.bytesUploaded,
                    completedParts := cu.completedParts } := by
  unfold HandleStatus
  simp only [hcu, hlook]
  exact storeLookup_storeSet_self uploads cu.uploadID _

theorem invCPB_UpdateProgress (u : UploadStatus) (pn : Int) (etag : String)
    (b : Int) (h : invCPB u = true) :
    invCPB (UpdateProgress u pn etag b) = true := by
  have h0 : u.completedParts = (u.eTags.length : Int) := by
    simpa [invCPB] using h
  unfold UpdateProgress
  cases hm : mapLookup u.eTags pn with
  | none =>
    have hlen := mapSet_length_none u.eTags pn etag hm
    simp only [hm, Option.isNone_none, if_true]
    split_ifs <;> simp [invCPB, hlen, h0]
  | some w =>
    have hlen := mapSet_length_some u.eTags pn etag w hm
    simp only [hm, Option.isNone_some, Bool.false_eq_true, if_false]
    split_ifs <;> simp [invCPB, hlen, h0]

theorem invCPB_MarkCompleted (now : Nat) (u : UploadStatus) :
    invCPB (MarkCompleted now u) = invCPB u := rfl

theorem invCPB_MarkFailed (now : Nat) (err : String) (u : UploadStatus) :
    invCPB (MarkFailed now err u) = invCPB u := rfl

theorem invCPB_MarkCancelled (now : Nat) (u : UploadStatus) :
    invCPB (MarkCancelled now u) = invCPB u := rfl

theorem storeInvB_HandleResponse (now : Nat) (completeResult : Option String)
    (uploads : List (String × UploadStatus)) (msg : ResponseMessage)
    (hinv : storeInvB uploads = true) :
    storeInvB (HandleResponse now completeResult uploads msg).1 = true := by
  unfold HandleResponse
  by_cases hact : msg.action = CommandAction.downloadFile
  · simp only [hact, if_pos rfl]
    cases hl : storeLookup uploads msg.payload.uploadID with
    | none => exact hinv
    | some u =>
      have hu : invCPB u = true := storeInvB_lookup uploads _ u hinv hl
      cases msg.status with
      | success =>
        by_cases hlen : 0 < msg.payload.eTags.length
        · simp only [if_pos hlen]
          cases completeResult with
          | none =>
            exact storeInvB_storeSet uploads _ _ hinv
              (by rw [invCPB_MarkCompleted]; exact hu)
          | some errText =>
            exact storeInvB_storeSet uploads _ _ hinv
              (by rw [invCPB_MarkFailed, invCPB_MarkCompleted]; exact hu)
        · simp only [if_neg hlen]
          exact storeInvB_storeSet uploads _ _ hinv
            (by rw [invCPB_MarkCompleted]; exact hu)
      | error =>
        exact storeInvB_storeSet uploads _ _ hinv
          (by rw [invCPB_MarkFailed]; exact hu)
      | inProgress => exact hinv
      | cancelled =>
        exact storeInvB_storeSet uploads _ _ hinv
          (by rw [invCPB_MarkCancelled]; exact hu)
  · simp only [hact, if_neg hact]
    exact hinv

theorem clientsSet_map_fst (l : List (String × Nat)) (k : String) (v : Nat) :
    (clientsSet l k v).map Prod.fst =
      if k ∈ l.map Prod.fst then l.map Prod.fst
      else l.map Prod.fst ++ [k] := by
  induction l with
  | nil => simp [clientsSet]
  | cons p rest ih =>
    obtain ⟨a, b⟩ := p
    by_cases h : a = k
    · simp [clientsSet, h]
    · have h2 : ¬ k = a := fun hk => h hk.symm
      simp only [clientsSet, if_neg h, List.map_cons, ih]
      by_cases hmem : k ∈ rest.map Prod.fst
      · simp [hmem, h2]
      · simp [hmem, h2]

theorem clientsSet_nodup (l : List (String × Nat)) (k : String) (v : Nat)
    (h : (l.map Prod.fst).Nodup) : ((clientsSet l k v).map Prod.fst).Nodup := by
  rw [clientsSet_map_fst]
  split_ifs with hmem
  · exact h
  · simp [List.nodup_append, h, hmem]

theorem countKey_eq_zero (l : List (String × Nat)) (id : String)
    (h : id ∉ l.map Prod.fst) : countKey l id = 0 := by
  induction l with
  | nil => rfl
  | cons p rest ih =>
    obtain ⟨a, b⟩ := p
    simp only [List.map_cons, List.mem_cons, not_or] at h
    have ha : ¬ a = id := fun hk => h.1 hk.symm
    simp [countKey, List.filter, ha]
    simpa [countKey] using ih h.2

theorem countKey_clientsSet (l : List (String × Nat)) (k : String) (v : Nat)
    (h : (l.map Prod.fst).Nodup) : countKey (clientsSet l k v) k = 1 := by
  induction l with
  | nil => simp [clientsSet, countKey, List.filter]
  | cons p rest ih =>
    obtain ⟨a, b⟩ := p
    simp only [List.map_cons, List.nodup_cons] at h
    by_cases hk : a = k
    · subst hk
      have h0 : countKey rest a = 0 := countKey_eq_zero rest a h.1
      simp [clientsSet, countKey, List.filter] at h0 ⊢
      simpa [countKey] using h0
    · simp [clientsSet, hk, countKey, List.filter]
      simpa [countKey] using ih h.2

theorem nextReconnectDelay_min (base maxR : Int) (n : Nat)
    (h0 : 0 ≤ base) (h1 : base ≤ maxR) :
    nextReconnectDelay maxR (min (base * 2 ^ n) maxR) =
      min (base * 2 ^ (n + 1)) maxR := by
  have ha : 0 ≤ base * 2 ^ n :=
    mul_nonneg h0 (pow_nonneg (by norm_num) n)
  have h2 : base * 2 ^ (n + 1) = base * 2 ^ n * 2 := by ring
  rw [h2]
  simp only [nextReconnectDelay]
  generalize base * 2 ^ n = a at ha ⊢
  split_ifs with h <;> omega

theorem reconnectDelay_replicate (base maxR : Int)
    (h0 : 0 ≤ base) (h1 : base ≤ maxR) (n : Nat) :
    List.foldl (applyConnectEvent base maxR) base
        (List.replicate n ConnectEvent.dialFailure) = min (base * 2 ^ n) maxR := by
  induction n with
  | zero => simp [min_eq_left h1]
  | succ m ih =>
    rw [List.replicate_succ', List.foldl_append, ih, List.foldl_cons,
      List.foldl_nil]
    exact nextReconnectDelay_min base maxR m h0 h1

/-! ## Claims -/

/-- C1: the claim states that for a ticket provisioned for the configured
ceiling and a file whose size is at most that ceiling, Upload uses only
as many parts as the file needs, uploading exactly ceil of fileSize over
chunkSize parts without error for ticket parts beyond the end of the
file. The code violates this: with the 100 MiB ceiling and 5 MiB chunks
the ticket has 20 parts, a 12 MiB file needs 3 parts, yet the part loop
runs over all 20 ticket parts and computes a negative part size at part
4 (offset 15 MiB past the 12 MiB end), so the make allocation of the
part buffer panics and no result is produced, while the loop restricted
to the 3 needed parts would produce exactly the specified byte ranges. -/
theorem C1_upload_panics_beyond_file_end :
    totalPartsFor estimatedFileSize 5242880 = 20 ∧
    totalPartsFor 12582912 5242880 = 3 ∧
    uploadPartsLoop 5242880 12582912
      (InitiateMultipartUpload "bucket"
        "uploads/agent-1/20251101-120000-test-file.bin" "sid"
        estimatedFileSize 5242880).presignedURLs = none ∧
    uploadPartsLoop 5242880 12582912
      ((InitiateMultipartUpload "bucket"
        "uploads/agent-1/20251101-120000-test-file.bin" "sid"
        estimatedFileSize 5242880).presignedURLs.take 3) =
      some [{ partNumber := 1, offset := 0, size := 5242880 },
            { partNumber := 2, offset := 5242880, size := 5242880 },
            { partNumber := 3, offset := 10485760, size := 2097152 }] := by
  refine ⟨by decide, by decide, by decide, by decide⟩

/-- C2 counterexample: a duplicate success Response for a transfer whose
record is already Completed is not a no-op. At this concrete input the
handler mutates the record (the end time is overwritten) and invokes the
blob-store completion operation again. -/
theorem C2_duplicate_success_not_noop :
    completedRecord.status = UploadState.completed ∧
    (HandleResponse 2 none [("t1", completedRecord)] dupSuccessMsg).2 =
      [S3Call.completeMultipart completedRecord.s3Key completedRecord.s3UploadID
        [{ partNumber := 1, eTag := "etag-1" }]] ∧
    storeLookup (HandleResponse 2 none [("t1", completedRecord)] dupSuccessMsg).1
        "t1" ≠ some completedRecord := by
  refine ⟨rfl, by decide, by decide⟩

/-- C2 amended: HandleResponse has no idempotency guard. For a record
that is already Completed, a further success Response with a nonempty
digest map re-applies MarkCompleted (the status stays Completed but the
end time is overwritten with the current time) and invokes the
blob-store completion operation again with the sorted digest list. -/
theorem C2_amended_duplicate_success_reinvokes_completion
    (now : Nat) (uploads : List (String × UploadStatus))
    (msg : ResponseMessage) (u : UploadStatus)
    (hact : msg.action = CommandAction.downloadFile)
    (hst : msg.status = ResponseStatus.success)
    (hlook : storeLookup uploads msg.payload.uploadID = some u)
    (_hterm : u.status = UploadState.completed)
    (hne : 0 < msg.payload.eTags.length) :
    (HandleResponse now none uploads msg).2 =
      [S3Call.completeMultipart u.s3Key u.s3UploadID
        (sortPartsByNumber (etagsToParts msg.payload.eTags))] ∧
    storeLookup (HandleResponse now none uploads msg).1 msg.payload.uploadID =
      some (MarkCompleted now u) := by
  unfold HandleResponse
  simp only [hact, if_pos rfl, hlook, hst, if_pos hne]
  exact ⟨rfl, storeLookup_storeSet_self uploads _ _⟩

/-- C2 amended, witness at a concrete already-Completed record. -/
theorem C2_amended_witness :
    (HandleResponse 2 none [("t1", completedRecord)] dupSuccessMsg).2 =
      [S3Call.completeMultipart completedRecord.s3Key completedRecord.s3UploadID
        (sortPartsByNumber (etagsToParts dupSuccessMsg.payload.eTags))] ∧
    storeLookup (HandleResponse 2 none [("t1", completedRecord)] dupSuccessMsg).1
        dupSuccessMsg.payload.uploadID = some (MarkCompleted 2 completedRecord) :=
  C2_amended_duplicate_success_reinvokes_completion 2 [("t1", completedRecord)]
    dupSuccessMsg completedRecord rfl rfl (by decide) rfl (by decide)

/-- C3: whenever HandleResponse issues blob-store calls, any completion
call among them carries a part list sorted by ascending part number,
whatever the iteration order of the digest map entries was. -/
theorem C3_completion_parts_sorted (now : Nat) (completeResult : Option String)
    (uploads : List (String × UploadStatus)) (msg : ResponseMessage) :
    ∀ c ∈ (HandleResponse now completeResult uploads msg).2,
      s3CallPartsSorted c := by
  intro c hc
  unfold HandleResponse at hc
  split at hc
  · split at hc
    · simp at hc
    · split at hc
      · split at hc
        · split at hc <;>
          · simp only [List.mem_singleton] at hc
            subst hc
            simpa [s3CallPartsSorted, sortPartsByNumber] using
              List.sorted_insertionSort partLe (etagsToParts msg.payload.eTags)
        · simp at hc
      · simp only [List.mem_singleton] at hc
        subst hc
        trivial
      · simp only [List.mem_singleton] at hc
        subst hc
        trivial
      · simp at hc
  · simp at hc

/-- C3 witness: a success Response whose digest entries arrive with part
2 before part 1 still yields a completion call sorted ascending. -/
theorem C3_witness :
    s3CallPartsSorted (S3Call.completeMultipart completedRecord.s3Key
      completedRecord.s3UploadID
      (sortPartsByNumber (etagsToParts [(2, "etag-2"), (1, "etag-1")]))) :=
  C3_completion_parts_sorted 2 none [("t1", completedRecord)]
    { status := ResponseStatus.success
      action := CommandAction.downloadFile
      payload := { uploadID := "t1", eTags := [(2, "etag-2"), (1, "etag-1")] }
      error := "" } _ (by decide)

/-- C4 counterexample: the claim states that completed-parts equals the
digest-map size after every Status or Response application. A Status
application to a fresh record (where the equality holds) reports two
completed parts; HandleStatus copies the reported counter but never
touches the digest map, which stays empty on the coordinator, so the
equality fails. -/
theorem C4_status_breaks_counter_map_equality :
    invCPB freshRecord = true ∧
    storeInvB (HandleStatus [("t1", freshRecord)] progressStatusMsg) = false := by
  refine ⟨by decide, by decide⟩

/-- C4 amended: the equality of completed-parts and digest-map size is
preserved by UpdateProgress and by every Response application, but a
Status application overwrites completed-parts with the client-reported
value while leaving the digest map untouched, so after a Status
application the counter equals the reported value, not necessarily the
digest-map size. -/
theorem C4_amended_counter_map_invariant :
    (∀ (u : UploadStatus) (pn : Int) (etag : String) (b : Int),
        invCPB u = true → invCPB (UpdateProgress u pn etag b) = true) ∧
    (∀ (now : Nat) (completeResult : Option String)
        (uploads : List (String × UploadStatus)) (msg : ResponseMessage),
        storeInvB uploads = true →
        storeInvB (HandleResponse now completeResult uploads msg).1 = true) ∧
    (∀ (uploads : List (String × UploadStatus)) (msg : StatusMessage)
        (cu : UploadStatusMsg) (u : UploadStatus),
        msg.currentUpload = some cu →
        storeLookup uploads cu.uploadID = some u →
        storeLookup (HandleStatus uploads msg) cu.uploadID =
          some { u with bytesUploaded := cu.bytesUploaded,
                        completedParts := cu.completedParts }) :=
  ⟨invCPB_UpdateProgress, storeInvB_HandleResponse, handleStatus_lookup⟩

/-- C4 amended, witness at concrete inputs for the three conjuncts. -/
theorem C4_amended_witness :
    invCPB (UpdateProgress freshRecord 1 "etag-1" 5242880) = true ∧
    storeInvB (HandleResponse 2 none [("t1", freshRecord)] dupSuccessMsg).1 = true ∧
    storeLookup (HandleStatus [("t1", freshRecord)] progressStatusMsg) "t1" =
      some { freshRecord with bytesUploaded := 10485760, completedParts := 2 } :=
  ⟨C4_amended_counter_map_invariant.1 freshRecord 1 "etag-1" 5242880 (by decide),
   C4_amended_counter_map_invariant.2.1 2 none [("t1", freshRecord)]
     dupSuccessMsg (by decide),
   C4_amended_counter_map_invariant.2.2 [("t1", freshRecord)] progressStatusMsg
     _ freshRecord rfl (by decide)⟩

/-- C5 counterexample: a Status frame attributed to a transfer whose
record is already in the terminal Completed state does not leave the
record unchanged; at this concrete input the byte and part counters are
overwritten with the reported values. -/
theorem C5_terminal_record_mutated_by_status :
    completedRecord.status = UploadState.completed ∧
    storeLookup (HandleStatus [("t1", completedRecord)] progressStatusMsg) "t1" ≠
      some completedRecord := by
  refine ⟨rfl, by decide⟩

/-- C5 amended: HandleStatus has no terminal-state guard. For a record in
any terminal state (Completed, Failed or Cancelled), a Status frame
attributed to its transfer id still overwrites the bytes-uploaded and
completed-parts counters with the reported values; all other fields are
unchanged. -/
theorem C5_amended_status_updates_unconditional
    (uploads : List (String × UploadStatus)) (msg : StatusMessage)
    (cu : UploadStatusMsg) (u : UploadStatus)
    (hcu : msg.currentUpload = some cu)
    (hlook : storeLookup uploads cu.uploadID = some u)
    (_hterm : u.status = UploadState.completed ∨
        u.status = UploadState.failed ∨ u.status = UploadState.cancelled) :
    storeLookup (HandleStatus uploads msg) cu.uploadID =
      some { u with bytesUploaded := cu.bytesUploaded,
                    completedParts := cu.completedParts } :=
  handleStatus_lookup uploads msg cu u hcu hlook

/-- C5 amended, witness at a concrete Completed record. -/
theorem C5_amended_witness :
    storeLookup (HandleStatus [("t1", completedRecord)] progressStatusMsg) "t1" =
      some { completedRecord with bytesUploaded := 10485760,
                                  completedParts := 2 } :=
  C5_amended_status_updates_unconditional [("t1", completedRecord)]
    progressStatusMsg _ completedRecord rfl (by decide) (Or.inl rfl)

/-- C6 counterexample: with the default base delay of 5 seconds and cap
of 300 seconds, the wait the client performs when the first dial failure
occurs (N equals 1) is the delay value held at that moment, which is the
base 5, whereas the claimed formula gives min of base times 2 to the N
and the cap, which is 10. -/
theorem C6_delay_off_by_one :
    reconnectDelayAfter 5 300 [] = 5 ∧
    min ((5 : Int) * 2 ^ 1) 300 = 10 ∧ (5 : Int) ≠ 10 := by
  refine ⟨rfl, by decide, by decide⟩

/-- C6 amended: after a successful connect (which resets the delay to
base) followed by N plus 1 consecutive dial failures, the wait performed
at the last of those failures equals min of base times 2 to the N and
the cap: the exponent is the number of preceding consecutive failures,
one less than the claimed formula. The delay value after events is what
Client.Start waits next. Requires a nonnegative base no greater than the
cap, as the default 5-second base and 300-second cap satisfy. -/
theorem C6_amended_backoff_closed_form (base maxR : Int)
    (pre : List ConnectEvent) (n : Nat)
    (h0 : 0 ≤ base) (h1 : base ≤ maxR) :
    reconnectDelayAfter base maxR
        (pre ++ ConnectEvent.dialSuccess ::
          List.replicate n ConnectEvent.dialFailure) =
      min (base * 2 ^ n) maxR := by
  unfold reconnectDelayAfter
  rw [List.foldl_append, List.foldl_cons]
  have hreset : applyConnectEvent base maxR
      (List.foldl (applyConnectEvent base maxR) base pre)
      ConnectEvent.dialSuccess = base := rfl
  rw [hreset]
  exact reconnectDelay_replicate base maxR h0 h1 n

/-- C6 amended, witness with the default base and cap after 7 failures. -/
theorem C6_amended_witness :
    reconnectDelayAfter 5 300
        ([] ++ ConnectEvent.dialSuccess ::
          List.replicate 7 ConnectEvent.dialFailure) =
      min ((5 : Int) * 2 ^ 7) 300 :=
  C6_amended_backoff_closed_form 5 300 [] 7 (by decide) (by decide)

/-- C7: on a registry whose client map holds at most one entry per agent
id (its keys are nodup, as a Go map guarantees), RegisterClient keeps
the keys nodup, leaves exactly one entry for the registered id, and when
an entry for that id already existed it closes exactly the old
connection. -/
theorem C7_register_unique_handle (clients : List (String × Nat))
    (clientID : String) (conn : Nat)
    (hnd : (clients.map Prod.fst).Nodup) :
    ((RegisterClient clients clientID conn).1.map Prod.fst).Nodup ∧
    countKey (RegisterClient clients clientID conn).1 clientID = 1 ∧
    ∀ oldConn, clientsLookup clients clientID = some oldConn →
      (RegisterClient clients clientID conn).2 = [oldConn] := by
  have hfst : (RegisterClient clients clientID conn).1 =
      clientsSet clients clientID conn := by
    unfold RegisterClient
    cases clientsLookup clients clientID <;> rfl
  refine ⟨?_, ?_, ?_⟩
  · rw [hfst]
    exact clientsSet_nodup clients clientID conn hnd
  · rw [hfst]
    exact countKey_clientsSet clients clientID conn hnd
  · intro oldConn h
    unfold RegisterClient
    rw [h]

/-- C7 witness: a second registration for agent-1 while the first handle
is still present closes the first connection and leaves exactly one
entry. -/
theorem C7_witness :
    (((RegisterClient [("agent-1", 1)] "agent-1" 2).1.map Prod.fst).Nodup) ∧
    countKey (RegisterClient [("agent-1", 1)] "agent-1" 2).1 "agent-1" = 1 ∧
    (RegisterClient [("agent-1", 1)] "agent-1" 2).2 = [1] := by
  have h := C7_register_unique_handle [("agent-1", 1)] "agent-1" 2 (by decide)
  exact ⟨h.1, h.2.1, h.2.2 1 (by decide)⟩

/-- C8: a trigger request naming an agent with no live channel returns
the not-connected error with no effects at all, so no transfer record is
registered and the blob store is never contacted; for an agent with a
live channel (and the external initiate and send succeeding, as in the
source happy path) the handler returns the transfer id generated as the
hex encoding of 16 bytes from the cryptographic random source. -/
theorem C8_trigger_notconnected_and_id (cfg : HandlerConfig)
    (connectedClients : List String) (clientID : String)
    (req : TriggerDownloadRequest) (randBytes : List Nat)
    (timestamp sessionID : String) (now : Nat) (initiateOk sendOk : Bool) :
    (connectedClients.contains clientID = false →
      TriggerDownload cfg connectedClients clientID req randBytes timestamp
          sessionID now initiateOk sendOk =
        (Except.error (TriggerError.notConnected clientID), [])) ∧
    (connectedClients.contains clientID = true →
      ∃ out, (TriggerDownload cfg connectedClients clientID req randBytes
          timestamp sessionID now true true).1 = Except.ok out ∧
        out.uploadID = generateUploadID randBytes) := by
  constructor
  · intro h
    unfold TriggerDownload
    rw [h]
    rfl
  · intro h
    unfold TriggerDownload
    rw [h]
    exact ⟨_, rfl, rfl⟩

/-- C8 witness: agent-2 has no channel and gets the not-connected error
with no effects; agent-1 has a channel and gets the hex transfer id. -/
theorem C8_witness :
    (TriggerDownload ⟨5242880, "uploads", "bucket"⟩ ["agent-1"] "agent-2"
        ⟨""⟩ (List.replicate 16 0) "20251101-120000" "sid" 0 true true =
      (Except.error (TriggerError.notConnected "agent-2"), [])) ∧
    ∃ out, (TriggerDownload ⟨5242880, "uploads", "bucket"⟩ ["agent-1"] "agent-1"
        ⟨""⟩ (List.replicate 16 0) "20251101-120000" "sid" 0 true true).1 =
      Except.ok out ∧ out.uploadID = generateUploadID (List.replicate 16 0) :=
  ⟨(C8_trigger_notconnected_and_id ⟨5242880, "uploads", "bucket"⟩ ["agent-1"]
      "agent-2" ⟨""⟩ (List.replicate 16 0) "20251101-120000" "sid" 0 true
      true).1 (by decide),
   (C8_trigger_notconnected_and_id ⟨5242880, "uploads", "bucket"⟩ ["agent-1"]
      "agent-1" ⟨""⟩ (List.replicate 16 0) "20251101-120000" "sid" 0 true
      true).2 (by decide)⟩

/-- C9 counterexample: the claim states that the ticket for a 12 MB file
with 5 MB chunks contains exactly 3 presigned part URLs. At this
concrete trigger the ticket contains 20 URLs, because TriggerDownload
always passes the fixed 100 MiB estimated size to the blob store; 3 is
what the file would need. -/
theorem C9_ticket_has_20_parts_not_3 :
    ((TriggerDownload ⟨5242880, "uploads", "bucket"⟩ ["agent-1"] "agent-1"
        ⟨"/data/test-file.bin"⟩ (List.replicate 16 0) "20251101-120000" "sid" 0
        true true).1.toOption.map
      fun out => out.command.payload.uploadConfig.presignedURLs.length) =
        some 20 ∧
    totalPartsFor 12582912 5242880 = 3 ∧ (20 : Nat) ≠ 3 := by
  refine ⟨by decide, by decide, by decide⟩

/-- C9 amended: the ticket issued by a successful trigger always carries
ceil of the fixed 100 MiB estimated size over the configured chunk size
presigned URLs (20 for 5 MiB chunks); the transferred file's actual size
plays no part in the ticket, since TriggerDownload never sees it. -/
theorem C9_amended_ticket_size_from_ceiling (cfg : HandlerConfig)
    (connectedClients : List String) (clientID : String)
    (req : TriggerDownloadRequest) (randBytes : List Nat)
    (timestamp sessionID : String) (now : Nat)
    (hconn : connectedClients.contains clientID = true) :
    ∃ out, (TriggerDownload cfg connectedClients clientID req randBytes
        timestamp sessionID now true true).1 = Except.ok out ∧
      out.command.payload.uploadConfig.presignedURLs.length =
        (totalPartsFor estimatedFileSize cfg.chunkSize).toNat := by
  unfold TriggerDownload
  rw [hconn]
  refine ⟨_, rfl, ?_⟩
  simp only [InitiateMultipartUpload, List.length_map, List.length_range]

/-- C9 amended, witness with 5 MiB chunks yielding a 20-part ticket. -/
theorem C9_amended_witness :
    ∃ out, (TriggerDownload ⟨5242880, "uploads", "bucket"⟩ ["agent-1"]
        "agent-1" ⟨""⟩ (List.replicate 16 0) "20251101-120000" "sid" 0
        true true).1 = Except.ok out ∧
      out.command.payload.uploadConfig.presignedURLs.length =
        (totalPartsFor estimatedFileSize 5242880).toNat :=
  C9_amended_ticket_size_from_ceiling ⟨5242880, "uploads", "bucket"⟩
    ["agent-1"] "agent-1" ⟨""⟩ (List.replicate 16 0) "20251101-120000" "sid" 0
    (by decide)

/-- C10: the coordinator substitutes the fixed default path for a
missing or empty request path, so the path it places in the command
payload is never empty, and on such a nonempty payload path the client
handler keeps it rather than falling back to its own configured default;
any successful trigger for the request carries exactly the defaulted
path in its command payload. -/
theorem C10_default_path_nonempty_no_fallback (reqPath configured : String) :
    defaultedFilePath reqPath ≠ "" ∧
    effectiveFilePath configured (some (defaultedFilePath reqPath)) =
      defaultedFilePath reqPath ∧
    (∀ (cfg : HandlerConfig) (connectedClients : List String)
        (clientID : String) (randBytes : List Nat)
        (timestamp sessionID : String) (now : Nat) (initiateOk sendOk : Bool),
      triggerCommandPath (TriggerDownload cfg connectedClients clientID
          ⟨reqPath⟩ randBytes timestamp sessionID now initiateOk sendOk).1 =
        none ∨
      triggerCommandPath (TriggerDownload cfg connectedClients clientID
          ⟨reqPath⟩ randBytes timestamp sessionID now initiateOk sendOk).1 =
        some (defaultedFilePath reqPath)) := by
  have hne : defaultedFilePath reqPath ≠ "" := by
    unfold defaultedFilePath
    split_ifs with h
    · simp
    · exact h
  refine ⟨hne, ?_, ?_⟩
  · simp [effectiveFilePath, hne]
  · intro cfg connectedClients clientID randBytes timestamp sessionID now
      initiateOk sendOk
    unfold TriggerDownload
    cases hconn : connectedClients.contains clientID with
    | false => exact Or.inl rfl
    | true =>
      cases initiateOk with
      | false => exact Or.inl rfl
      | true =>
        cases sendOk with
        | false => exact Or.inl rfl
        | true => exact Or.inr rfl

end FDS
